import Mathlib

/-!
Shallow embedding of the `openapi-enforcer-middleware` v1 middleware
(`src/dist/index.js`, the monolithic `OpenApiEnforcerMiddleware` document):
the handler-chain runner (`middlewareRunner`), the request-validation
middleware (`prototype.middleware`), the controller and mock middlewares
(`prototype.controllers`, `prototype.mocks`), the controller registry
builder (`mapControllers`), and a small object-heap model for the
per-request shallow copy (`Object.assign({}, req)`).

External collaborators (the `openapi-enforcer` catalog: `openapi.request`,
`operation.response`, `schema.random`, `operation.getResponseContentTypeMatches`)
are modelled as data fields carried by the catalog/operation structures, as
the spec treats them as opaque capabilities.
-/

namespace EnforcerMw

/-- JSON-ish body values passed through the response pipeline. -/
inductive Val where
  | vstr (s : String)
  | vnum (n : Nat)
  | vlist (l : List Val)
  | vnull

/-- An error object: message plus the optional `statusCode` property that
`errorFromException` copies from an `Enforcer.Exception`. -/
structure Err where
  msg : String
  statusCode : Option Nat := none
deriving Repr, DecidableEq

/-- Header maps, query maps, etc.: lookup-based association lists
(later JS property writes are modelled by prepending, first match wins). -/
abbrev StrMap := List (String × String)

/-- Outcome of `schema.random()`: the enforcer returns a `[value, error, warning]`
triple; exactly one of the three is meaningful. -/
inductive RandomOutcome where
  | ok (v : Val)
  | fail (e : Err)
  | warn (w : Err)

/-- An opaque schema capability: only its `random()` result is consumed here. -/
structure Schema where
  random : RandomOutcome

/-- v3 media-type entry (`response.content[type]`). -/
structure MediaType where
  schema : Option Schema

/-- A declared response: v2 carries `schema`, v3 carries `content`. -/
structure ResponseSpec where
  schema : Option Schema := none
  content : Option (List (String × MediaType)) := none

/-- Result of `operation.response(code, body, headers)` after serialization:
headers to copy onto the response, and an optional body. -/
structure SerializedResponse where
  headers : StrMap
  body : Option Val

/-- `operation.response(...)` returns `[response, exception]`. -/
inductive RespondResult where
  | ok (r : SerializedResponse)
  | exn (e : Err)

/-- A matched operation of the catalog. `key` identifies the operation object
(the registry `Map` is keyed by object identity); `responses` maps
status-code strings to response specs; `respond` and `contentTypeMatches`
are the external serialization / content-negotiation capabilities. -/
structure Operation where
  key : Nat
  responses : List (String × ResponseSpec)
  respond : Nat → Val → StrMap → RespondResult
  contentTypeMatches : String → String → List String

/-- The decision object the mock middleware builds and attaches at
`req[reqMockStatusCodeProperty]`. -/
structure MockDecision where
  source : String
  specified : Bool
  statusCode : String
  response : Option ResponseSpec := none

/-- The normalized request handed to `openapi.request(...)`. -/
structure ReqObj where
  headers : StrMap
  method : String
  path : String
  body : Option Val := none

/-- The parsed/validated request returned by `openapi.request` on success. -/
structure ValidatedReq where
  operation : Operation
  path : StrMap := []
  query : StrMap := []
  headers : StrMap := []
  cookies : StrMap := []
  body : Option Val := none

/-- `openapi.request` returns `[request, clientError]`. -/
inductive ReqValidation where
  | ok (v : ValidatedReq)
  | clientError (e : Err)

/-- The resolved catalog. `isV2` models `hasOwnProperty('swagger')`;
`versionStr` is the `openapi` version field; `validate` is `openapi.request`;
`pathLookup` is `openapi.path(method, path) -> value.operation`. -/
structure OpenApi where
  isV2 : Bool
  versionStr : String := "3.0.0"
  validate : ReqObj → ReqValidation
  pathLookup : String → String → Option Operation

/-- The request object as seen inside the middleware. The configured
property names (`reqOpenApiProperty`, `reqOperationProperty`,
`reqMockStatusCodeProperty`) are modelled as the fixed fields
`openapi`, `operation`, `mockDecision`. -/
structure Req where
  method : String := "GET"
  originalUrl : String := "/"
  baseUrl : String := ""
  headers : StrMap := []
  query : StrMap := []
  params : StrMap := []
  cookies : StrMap := []
  body : Option Val := none
  openapi : Option OpenApi := none
  operation : Option Operation := none
  mockDecision : Option MockDecision := none

/-- Response state. `sendOverridden` is true while the serializing
`res.send` override (installed by `prototype.middleware`) is in place;
`transportWrites` records bodies passed to the original `res.send`
(`none` = `res.send()` with no body); `serializerRuns` counts entries into
the overridden send; `randomCalls` counts `schema.random()` invocations;
`hostErrOut` records an error handed to the host `next` from inside the
send override. -/
structure Res where
  statusCode : Nat := 200
  headers : StrMap := []
  sendOverridden : Bool := false
  transportWrites : List (Option Val) := []
  serializerRuns : Nat := 0
  randomCalls : Nat := 0
  hostErrOut : Option Err := none

/-- `res.set(name, value)`. -/
def Res.setHeader (r : Res) (name value : String) : Res :=
  { r with headers := (name, value) :: r.headers.filter (fun p => p.1 ≠ name) }

/-- `res.removeHeader(name)`. -/
def Res.removeHeader (r : Res) (name : String) : Res :=
  { r with headers := r.headers.filter (fun p => p.1 ≠ name) }

/-- `res.sendStatus(code)`: set the status and send the status message body. -/
def Res.sendStatus (r : Res) (code : Nat) (message : String) : Res :=
  { r with statusCode := code,
           transportWrites := r.transportWrites ++ [some (Val.vstr message)] }

/-- Per-request state threaded through the handler chain: the request copy,
the response, and a ghost trace that test handlers push their ids onto
(mirroring the `flow.push(n)` pattern of the repository's tests). -/
structure St where
  req : Req
  res : Res
  trace : List Nat := []

def St.push (s : St) (i : Nat) : St := { s with trace := s.trace ++ [i] }

def St.setResHeader (s : St) (name value : String) : St :=
  { s with res := s.res.setHeader name value }

/-- What a handler invocation does: call the advance-callback with an
optional error, produce the response without advancing, or throw a
synchronous exception. -/
inductive StepOut where
  | callNext (e : Option Err) (s : St)
  | handled (s : St)
  | threw (e : Err) (s : St)

/-- A registered middleware entry: `middleware.length` (declared arity) and
its behavior. Error handlers receive the propagated error as `some e`. -/
structure Mw where
  arity : Nat
  body : Option Err → St → StepOut

def ENFORCER_HEADER : String := "x-openapi-enforcer"

def clearIf (clear : Bool) (s : St) : St :=
  if clear then { s with res := s.res.removeHeader ENFORCER_HEADER } else s

/-- `middlewareRunner` (src/dist/index.js lines 472-493): pop the front
handler; a handler is error-handling iff its arity is ≥ 4; invoke it when
its classification matches the presence of the propagated error, else skip;
a synchronous throw continues the chain as `run(e)`; on an empty queue the
terminal continuation receives the remaining error. Returns the final state
and `some err` when the terminal `next(err)` was reached (`none` when some
handler produced the response without advancing). -/
def runChain (clear : Bool) : List Mw → Option Err → St → St × Option (Option Err)
  | [], err, s => (clearIf clear s, some err)
  | m :: rest, err, s =>
    let s := clearIf clear s
    if decide (m.arity ≥ 4) = err.isSome then
      match m.body err s with
      | .callNext e s' => runChain clear rest e s'
      | .handled s' => (s', none)
      | .threw e s' => runChain clear rest (some e) s'
    else runChain clear rest err s

end EnforcerMw

namespace EnforcerMw

/-- A normal (arity-3) test handler that records its id and advances. -/
def normalMw (i : Nat) : Mw :=
  { arity := 3, body := fun _ s => .callNext none (s.push i) }

/-- A normal (arity-3) test handler that records its id and throws. -/
def throwingMw (i : Nat) (e : Err) : Mw :=
  { arity := 3, body := fun _ s => .threw e (s.push i) }

/-- An error-handling (arity-4) test handler that records its id and
advances with no error. -/
def errorMw (i : Nat) : Mw :=
  { arity := 4, body := fun _ s => .callNext none (s.push i) }

def st0 : St := { req := {}, res := {} }

end EnforcerMw

namespace EnforcerMw

/-- C1: the runner classifies a handler as error-handling exactly when its
arity is ≥ 4; with a pending error it skips normal handlers and invokes the
next error handler with the error; with no error it skips error handlers
and invokes the next normal handler; a synchronous throw continues the
chain as if the handler had advanced with that error; an empty queue hands
the remaining error to the terminal continuation; and the concrete chain
[h1 normal throwing, h2 normal, h3 error, h4 normal] executes exactly
h1, h3, h4. -/
theorem C1_runner_semantics :
    (∀ (m : Mw) (rest : List Mw) (e : Err) (s : St), m.arity < 4 →
      runChain false (m :: rest) (some e) s = runChain false rest (some e) s)
    ∧ (∀ (m : Mw) (rest : List Mw) (s : St), m.arity ≥ 4 →
      runChain false (m :: rest) none s = runChain false rest none s)
    ∧ (∀ (m : Mw) (rest : List Mw) (e : Err) (e' : Option Err) (s s' : St),
        m.arity ≥ 4 → m.body (some e) s = .callNext e' s' →
        runChain false (m :: rest) (some e) s = runChain false rest e' s')
    ∧ (∀ (m : Mw) (rest : List Mw) (e' : Option Err) (s s' : St),
        m.arity < 4 → m.body none s = .callNext e' s' →
        runChain false (m :: rest) none s = runChain false rest e' s')
    ∧ (∀ (m : Mw) (rest : List Mw) (e : Err) (s s' : St),
        m.arity < 4 → m.body none s = .threw e s' →
        runChain false (m :: rest) none s = runChain false rest (some e) s')
    ∧ (∀ (err : Option Err) (s : St), runChain false [] err s = (s, some err))
    ∧ (runChain false [throwingMw 1 { msg := "error" }, normalMw 2, errorMw 3, normalMw 4]
        none st0).1.trace = [1, 3, 4]
    ∧ (runChain false [throwingMw 1 { msg := "error" }, normalMw 2, errorMw 3, normalMw 4]
        none st0).2 = some none := by
  refine ⟨?_, ?_, ?_, ?_, ?_, ?_, rfl, rfl⟩
  · intro m rest e s h
    simp [runChain, clearIf, Nat.not_le_of_lt h]
  · intro m rest s h
    simp [runChain, clearIf, h]
  · intro m rest e e' s s' h hb
    simp [runChain, clearIf, h, hb]
  · intro m rest e' s s' h hb
    simp [runChain, clearIf, Nat.not_le_of_lt h, hb]
  · intro m rest e s s' h hb
    simp [runChain, clearIf, Nat.not_le_of_lt h, hb]
  · intro err s
    simp [runChain, clearIf]

/-- Witness for C1: each law applied at concrete handlers and states. -/
theorem C1_runner_semantics_witness :
    (runChain false [normalMw 5] (some { msg := "e" }) st0
      = runChain false [] (some { msg := "e" }) st0)
    ∧ (runChain false [errorMw 6] none st0 = runChain false [] none st0)
    ∧ (runChain false [errorMw 3] (some { msg := "e" }) st0
      = runChain false [] none (st0.push 3))
    ∧ (runChain false [normalMw 2] none st0 = runChain false [] none (st0.push 2))
    ∧ (runChain false [throwingMw 1 { msg := "e" }] none st0
      = runChain false [] (some { msg := "e" }) (st0.push 1))
    ∧ (runChain false [] none st0 = (st0, some none))
    ∧ (runChain false [throwingMw 1 { msg := "error" }, normalMw 2, errorMw 3, normalMw 4]
        none st0).1.trace = [1, 3, 4] := by
  obtain ⟨h1, h2, h3, h4, h5, h6, h7, _⟩ := C1_runner_semantics
  exact ⟨h1 (normalMw 5) [] { msg := "e" } st0 (by decide),
         h2 (errorMw 6) [] st0 (by decide),
         h3 (errorMw 3) [] { msg := "e" } none st0 (st0.push 3) (by decide) rfl,
         h4 (normalMw 2) [] none st0 (st0.push 2) (by decide) rfl,
         h5 (throwingMw 1 { msg := "e" }) [] { msg := "e" } st0 (st0.push 1) (by decide) rfl,
         h6 none st0, h7⟩

end EnforcerMw

namespace EnforcerMw

/-- JS `a || b` where `a` is a possibly-absent string property and the
empty string is falsy. -/
def jsOrS (a : Option String) (b : String) : String :=
  match a with
  | some s => if s = "" then b else s
  | none => b

/-- `errorFromException`: wrap an exception into an `Error`, copying its
message text and, when present, its `statusCode` property. -/
def errorFromErr (e : Err) : Err :=
  { msg := e.msg, statusCode := e.statusCode }

/-- The serialization attempt the overridden `res.send` makes
(src/dist/index.js lines 161-176): default the status to 200, derive a
`content-type` header for v3 documents when unset, then call
`operation.response(code, body, headers)`. Returns the code, the headers
used (after any derived content-type), and the serialization result. -/
def serializeAttempt (oa : OpenApi) (op : Operation) (reqHeaders : StrMap)
    (statusCode : Nat) (resHeaders : StrMap) (body : Val) :
    Nat × StrMap × RespondResult :=
  let code := if statusCode = 0 then 200 else statusCode
  let headers :=
    if (resHeaders.lookup "content-type").isNone ∧ ¬ oa.isV2 then
      match (op.contentTypeMatches (toString code)
              (jsOrS (reqHeaders.lookup "accepts") "*/*")).head? with
      | some t => ("content-type", t) :: resHeaders
      | none => resHeaders
    else resHeaders
  (code, headers, op.respond code body headers)

/-- `res.send(body)` (src/dist/index.js lines 156-186 and the surrounding
store/restore). While the serializing override is installed: restore the
original send first, then validate/serialize the body against the
operation's response; on failure set status 500 and pass the error to
`next` (never writing the original body); on success copy the serialized
headers onto the response and write the serialized body (or no body)
through the now-original send. When the override is not installed the call
is a raw pass-through to the transport. -/
def resSend (req : Req) (res : Res) (body : Val) : Res :=
  if res.sendOverridden then
    -- `res.send = send` happens before anything else in the override
    let res := { res with sendOverridden := false,
                          serializerRuns := res.serializerRuns + 1 }
    match req.openapi, req.operation with
    | some oa, some op =>
      match serializeAttempt oa op req.headers res.statusCode res.headers body with
      | (_, headers, .exn e) =>
        -- res.status(500); next(errorFromException(exception))
        { res with headers := headers, statusCode := 500,
                   hostErrOut := some (errorFromErr e) }
      | (_, headers, .ok r) =>
        let res := { res with headers := r.headers ++ headers }
        { res with transportWrites := res.transportWrites ++ [r.body] }
    | _, _ =>
      -- `req[reqOpenApiProperty]`/`req[reqOperationProperty]` are always
      -- attached before the chain runs; this branch models the TypeError a
      -- missing attachment would raise inside the override.
      { res with hostErrOut := some { msg := "TypeError", statusCode := none } }
  else
    { res with transportWrites := res.transportWrites ++ [some body] }

end EnforcerMw

namespace EnforcerMw

/-- C4: the response-serialization interception runs at most once. With
the override installed, one invocation of the outgoing write restores the
original write (and performs exactly one serialization); with the override
absent the write is a raw pass-through; hence the second of two
invocations from within one handler is a raw pass-through that adds no
serializer run. -/
theorem C4_send_interception_once :
    (∀ (req : Req) (res : Res) (body : Val), res.sendOverridden = true →
      (resSend req res body).sendOverridden = false
      ∧ (resSend req res body).serializerRuns = res.serializerRuns + 1)
    ∧ (∀ (req : Req) (res : Res) (body : Val), res.sendOverridden = false →
      resSend req res body
        = { res with transportWrites := res.transportWrites ++ [some body] })
    ∧ (∀ (req : Req) (res : Res) (b1 b2 : Val), res.sendOverridden = true →
      resSend req (resSend req res b1) b2
        = { resSend req res b1 with
              transportWrites := (resSend req res b1).transportWrites ++ [some b2] }
      ∧ (resSend req (resSend req res b1) b2).serializerRuns
          = res.serializerRuns + 1) := by
  have hover : ∀ (req : Req) (res : Res) (body : Val), res.sendOverridden = true →
      (resSend req res body).sendOverridden = false
      ∧ (resSend req res body).serializerRuns = res.serializerRuns + 1 := by
    intro req res body h
    unfold resSend
    rw [if_pos h]
    rcases req.openapi with _ | oa
    · simp
    rcases req.operation with _ | op
    · simp
    rcases h3 : serializeAttempt oa op req.headers res.statusCode res.headers body
      with ⟨c, hd, _ | e⟩ <;> simp [h3]
  have hraw : ∀ (req : Req) (res : Res) (body : Val), res.sendOverridden = false →
      resSend req res body
        = { res with transportWrites := res.transportWrites ++ [some body] } := by
    intro req res body h
    unfold resSend
    rw [if_neg (by simp [h])]
  refine ⟨hover, hraw, ?_⟩
  intro req res b1 b2 h
  have h1 := hover req res b1 h
  refine ⟨hraw req _ b2 h1.1, ?_⟩
  rw [hraw req _ b2 h1.1]
  exact h1.2

/-- Witness for C4 at a concrete request/response and bodies. -/
theorem C4_send_interception_once_witness :
    ((resSend {} { sendOverridden := true } (Val.vnum 1)).sendOverridden = false
      ∧ (resSend {} { sendOverridden := true } (Val.vnum 1)).serializerRuns = 0 + 1)
    ∧ (resSend {} {} (Val.vnum 2)
        = { ({} : Res) with transportWrites := [] ++ [some (Val.vnum 2)] })
    ∧ ((resSend {} (resSend {} { sendOverridden := true } (Val.vnum 1)) (Val.vnum 2)
        = { resSend {} { sendOverridden := true } (Val.vnum 1) with
              transportWrites :=
                (resSend {} { sendOverridden := true } (Val.vnum 1)).transportWrites
                  ++ [some (Val.vnum 2)] })
      ∧ (resSend {} (resSend {} { sendOverridden := true } (Val.vnum 1))
          (Val.vnum 2)).serializerRuns = 0 + 1) :=
  ⟨C4_send_interception_once.1 {} { sendOverridden := true } (Val.vnum 1) rfl,
   C4_send_interception_once.2.1 {} {} (Val.vnum 2) rfl,
   C4_send_interception_once.2.2 {} { sendOverridden := true } (Val.vnum 1)
     (Val.vnum 2) rfl⟩

end EnforcerMw

namespace EnforcerMw

/-- A catalog fixture (v2 document) used by concrete witnesses. -/
def oaFix : OpenApi :=
  { isV2 := true, versionStr := "2.0",
    validate := fun _ => .clientError { msg := "Not found", statusCode := some 404 },
    pathLookup := fun _ _ => none }

/-- An operation whose response serialization always fails. -/
def failOp : Operation :=
  { key := 0, responses := [("200", {})],
    respond := fun _ _ _ => .exn { msg := "invalid response body" },
    contentTypeMatches := fun _ _ => [] }

/-- A request carrying the fixture catalog and the failing operation. -/
def reqFailFix : Req := { openapi := some oaFix, operation := some failOp }

/-- C5: when the handler-produced body fails validation/serialization
against the matched operation's response, the overridden send sets status
500, hands the failure to the chain's error continuation, and never writes
the original (unserialized) body to the transport. -/
theorem C5_response_serialize_failure_500 :
    ∀ (req : Req) (res : Res) (body : Val) (oa : OpenApi) (op : Operation)
      (c : Nat) (hd : StrMap) (e : Err),
      res.sendOverridden = true →
      req.openapi = some oa →
      req.operation = some op →
      serializeAttempt oa op req.headers res.statusCode res.headers body
        = (c, hd, .exn e) →
      (resSend req res body).statusCode = 500
      ∧ (resSend req res body).hostErrOut = some (errorFromErr e)
      ∧ (resSend req res body).transportWrites = res.transportWrites := by
  intro req res body oa op c hd e h hoa hop hs
  unfold resSend
  rw [if_pos h]
  simp [hoa, hop, hs]

/-- Witness for C5 at a concrete failing operation. -/
theorem C5_response_serialize_failure_500_witness :
    (resSend reqFailFix { sendOverridden := true } (Val.vnum 7)).statusCode = 500
    ∧ (resSend reqFailFix { sendOverridden := true } (Val.vnum 7)).hostErrOut
        = some (errorFromErr { msg := "invalid response body" })
    ∧ (resSend reqFailFix { sendOverridden := true } (Val.vnum 7)).transportWrites
        = [] :=
  C5_response_serialize_failure_500 reqFailFix { sendOverridden := true }
    (Val.vnum 7) oaFix failOp 200 [] { msg := "invalid response body" }
    rfl rfl rfl rfl

end EnforcerMw

namespace EnforcerMw

/-- Recognized middleware options (defaults as in the constructor). -/
structure Options where
  fallthrough : Bool := true
  mockHeader : String := "x-mock"
  mockQuery : String := "x-mock"

/-- `hasBody` (src/dist/index.js lines 354-357): a body is present when a
`transfer-encoding` header exists or the `content-length` header is a
numeric string (`!isNaN(...)`; the empty string coerces to 0 and so counts
as numeric). -/
def hasBody (headers : StrMap) : Bool :=
  (headers.lookup "transfer-encoding").isSome ||
    (match headers.lookup "content-length" with
     | none => false
     | some s => s.trim = "" || (s.trim ≠ "" && s.trim.all Char.isDigit))

/-- `Object.assign({}, a, b)` merge for lookup maps: keys of `b` win. -/
def assignMerge (a b : StrMap) : StrMap := b ++ a

/-- Result of one pass of the validation middleware: the final chain state,
and `some e?` when the host `_next` was invoked (with an optional error,
after restoring the original send), `none` when the response was produced
without advancing to the host. -/
structure MwOutcome where
  st : St
  hostNext : Option (Option Err)

/-- `prototype.middleware` (src/dist/index.js lines 120-211) after contract
resolution: shallow-copy the request, build the normalized request object,
validate it against the catalog; on a 404 client error apply the
fallthrough policy (pass control on with no error, or answer 404 without
running the chain); otherwise install the serializing send override,
attach the catalog and operation (and, when valid, the parsed parameters
and body) to the request copy, and run the registered handler chain with
the validation error (if any) as the initial propagated error.
`mwReqObj` is the normalized request object handed to `openapi.request`. -/
def mwReqObj (req : Req) : ReqObj :=
  { headers := req.headers, method := req.method,
    path := req.originalUrl.drop req.baseUrl.length,
    body := if hasBody req.headers then req.body else none }

def middlewareStep (opts : Options) (chain : List Mw) (oa : OpenApi)
    (req0 : Req) (res0 : Res) : MwOutcome :=
  -- req = Object.assign({}, req): the chain works on a per-request copy
  let req := req0
  let reqObj : ReqObj := mwReqObj req
  let finish : St × Option (Option Err) → MwOutcome := fun (s, t) =>
    match t with
    | some e? =>
      -- the `next` wrapper restores the original send before calling `_next`
      { st := { s with res := { s.res with sendOverridden := false } },
        hostNext := some e? }
    | none => { st := s, hostNext := none }
  match oa.validate reqObj with
  | .clientError e =>
    if e.statusCode = some 404 then
      if opts.fallthrough then
        { st := { req := req, res := res0 }, hostNext := some none }
      else
        { st := { req := req, res := res0.sendStatus 404 "Not Found" },
          hostNext := none }
    else
      let res := { res0 with sendOverridden := true }
      let req := { req with openapi := some oa,
                            operation := oa.pathLookup reqObj.method reqObj.path }
      finish (runChain true chain (some (errorFromErr e)) { req := req, res := res })
  | .ok v =>
    let res := { res0 with sendOverridden := true }
    let req := { req with
      openapi := some oa,
      operation := some v.operation,
      params := v.path,
      cookies := assignMerge req.cookies v.cookies,
      headers := assignMerge req.headers v.headers,
      query := assignMerge req.query v.query,
      body := match v.body with | some b => some b | none => req.body }
    finish (runChain true chain none { req := req, res := res })

end EnforcerMw

namespace EnforcerMw

/-- C2: on a request whose validation outcome is a 404 client error, with
`fallthrough` enabled the middleware sets no status, writes nothing, skips
the handler chain, and passes control onward with no error; with
`fallthrough` disabled it responds with status exactly 404 without
invoking the handler chain. -/
theorem C2_unmatched_fallthrough_policy :
    ∀ (opts : Options) (chain : List Mw) (oa : OpenApi) (req : Req)
      (res : Res) (e : Err),
      oa.validate (mwReqObj req) = .clientError e →
      e.statusCode = some 404 →
      (opts.fallthrough = true →
        middlewareStep opts chain oa req res
          = { st := { req := req, res := res }, hostNext := some none })
      ∧ (opts.fallthrough = false →
        middlewareStep opts chain oa req res
          = { st := { req := req, res := res.sendStatus 404 "Not Found" },
              hostNext := none }) := by
  intro opts chain oa req res e hv h404
  constructor
  · intro hft
    unfold middlewareStep
    simp [hv, h404, hft]
  · intro hft
    unfold middlewareStep
    simp [hv, h404, hft]

/-- Witness for C2: the fixture catalog rejects every request with a 404
client error; both fallthrough settings evaluated at a concrete request. -/
theorem C2_unmatched_fallthrough_policy_witness :
    (middlewareStep { fallthrough := true } [normalMw 1] oaFix {} {}
      = { st := { req := {}, res := {} }, hostNext := some none })
    ∧ (middlewareStep { fallthrough := false } [normalMw 1] oaFix {} {}
      = { st := { req := {}, res := Res.sendStatus {} 404 "Not Found" },
          hostNext := none }) :=
  ⟨(C2_unmatched_fallthrough_policy { fallthrough := true } [normalMw 1] oaFix {} {}
      { msg := "Not found", statusCode := some 404 } rfl rfl).1 rfl,
   (C2_unmatched_fallthrough_policy { fallthrough := false } [normalMw 1] oaFix {} {}
      { msg := "Not found", statusCode := some 404 } rfl rfl).2 rfl⟩

end EnforcerMw

namespace EnforcerMw

/-- A controller handler bound to an operation: a `(req, res, next)`
function acting on the chain state. -/
abbrev Controller := St → StepOut

/-- `promise.then(...).catch(next)` / `try { controller(...) } catch (err)
{ next(err) }`: a synchronous throw from the invoked controller is routed
to the advance-callback as an error. -/
def catchToNext : StepOut → StepOut
  | .threw e s => .callNext (some e) s
  | x => x

/-- `prototype.controllers`'s registered middleware (src/dist/index.js
lines 101-115): look up a controller bound to the request's operation; when
found, set the marker header to `controller` and invoke it; otherwise pass
control on with no error. The registry `Map` is keyed by operation
identity (`Operation.key`). -/
def controllersMw (registry : Nat → Option Controller) : Mw :=
  { arity := 3,
    body := fun _ s =>
      match s.req.operation with
      | none => .callNext none s
      | some op =>
        match registry op.key with
        | some c => catchToNext (c (s.setResHeader ENFORCER_HEADER "controller"))
        | none => .callNext none s }

/-- The contract "version" computed at src/dist/index.js line 257:
`_openapi.swagger ? 2 : /^(\d+)/.exec(_openapi.openapi)[0]`. For a v2
document this is the number 2; otherwise it is the *string* of leading
digits of the version field. -/
inductive JsVersion where
  | num (n : Nat)
  | str (s : String)

def jsVersion (oa : OpenApi) : JsVersion :=
  if oa.isV2 then .num 2 else .str (oa.versionStr.takeWhile Char.isDigit)

/-- JS strict equality `version === n` against a number literal: a string
value is never strictly equal to a number, so for non-v2 documents this is
false for every `n`. -/
def versionEqNum (oa : OpenApi) (n : Nat) : Bool :=
  match jsVersion oa with
  | .num m => m == n
  | .str _ => false

/-- The mock-decision triage (src/dist/index.js lines 229-251): if the
configured mock header name is an own property of `req.headers` the source
is `header`; otherwise, if the configured mock *query* name is an own
property of `req.headers` (the source reads `req.headers`, not
`req.query`, here) the source is `query`, with the status code still read
from the mock *header* key; otherwise, with automatic mocking enabled, an
automatic decision; else no decision. An empty trigger value falls back to
the first declared response code, or the empty string. -/
def mockDecide (opts : Options) (automatic : Bool) (headers : StrMap)
    (responseCodes : List String) : Option MockDecision :=
  match headers.lookup opts.mockHeader with
  | some hv =>
    some { source := "header", specified := hv ≠ "",
           statusCode := jsOrS (some hv) (jsOrS responseCodes.head? "") }
  | none =>
    match headers.lookup opts.mockQuery with
    | some qv =>
      some { source := "query", specified := qv ≠ "",
             statusCode := jsOrS (headers.lookup opts.mockHeader)
                             (jsOrS responseCodes.head? "") }
    | none =>
      if automatic then
        some { source := "automatic", specified := false,
               statusCode := jsOrS responseCodes.head? "" }
      else none

/-- `unableToMock` (src/dist/index.js lines 495-502): the aggregated mock
exception gains the message `Unable to generate mock response` and status
code 501. -/
def unableToMockErr : Err :=
  { msg := "Unable to generate mock response", statusCode := some 501 }

/-- Express's `res.status(code)` coerces a numeric string to a number;
digit-fold evaluation of the status-code strings used by the mock engine. -/
def jsStringToNat (s : String) : Nat :=
  s.data.foldl (fun acc c => acc * 10 + (c.toNat - 48)) 0

/-- Random generation for a resolved schema (the shared tail of the v2 and
v3 generation branches, src/dist/index.js lines 283-295 / 300-311): a
generation error or warning fails with `unableToMock` (501); on success the
response status is set to the decided code and the generated value is
written through `res.send` (the serializing override installed by
`prototype.middleware` is still active at this point). -/
def mockGenerate (sch : Schema) (m : MockDecision) (s : St) : StepOut :=
  let s := { s with res := { s.res with randomCalls := s.res.randomCalls + 1 } }
  match sch.random with
  | .fail _ => .callNext (some unableToMockErr) s
  | .warn _ => .callNext (some unableToMockErr) s
  | .ok v =>
    let s := { s with res := { s.res with statusCode := jsStringToNat m.statusCode } }
    .handled { s with res := resSend s.req s.res v }

/-- The failure for a decided status code with no declared response
(src/dist/index.js lines 275-278): message pushed onto the base exception,
whose status code is 400 (set at line 259, never overwritten here). -/
def noResponseErr (code : String) : Err :=
  { msg := "Unable to generate mock response: No response is defined for status code: " ++ code,
    statusCode := some 400 }

/-- `prototype.mocks`'s registered middleware (src/dist/index.js lines
222-320): triage the mock decision; with no decision pass control on
unchanged. With a decision, resolve the declared response for the decided
status code, attach the decision object to the request
(`req[reqMockStatusCodeProperty]`), and only then branch: a bound mock
controller is invoked (marker header set to `mock`, synchronous throws
routed to the advance-callback); an undeclared status code fails through
the error path with the base exception (status code 400, set at line 259);
otherwise generation proceeds per contract version (the v3 arm compares
the string version against the number 3 and is therefore unreachable),
and a missing schema or failed generation fails with 501. -/
def mocksMw (opts : Options) (oa : OpenApi) (registry : Nat → Option Controller)
    (automatic : Bool) : Mw :=
  { arity := 3,
    body := fun _ s =>
      match s.req.operation with
      | none =>
        -- `operation.responses` on an undefined operation: the TypeError is
        -- caught by `.catch(next)`
        .callNext (some { msg := "TypeError", statusCode := none }) s
      | some op =>
        let responseCodes := op.responses.map Prod.fst
        match mockDecide opts automatic s.req.headers responseCodes with
        | none => .callNext none s
        | some m0 =>
          let m := { m0 with response := op.responses.lookup m0.statusCode }
          let s := { s with req := { s.req with mockDecision := some m } }
          match registry op.key with
          | some c => catchToNext (c (s.setResHeader ENFORCER_HEADER "mock"))
          | none =>
            match m.response with
            | none => .callNext (some (noResponseErr m.statusCode)) s
            | some resp =>
              match versionEqNum oa 2, resp.schema with
              | true, some sch => mockGenerate sch m s
              | _, _ =>
                match versionEqNum oa 3, resp.content with
                | true, some content =>
                  let typeMatches := op.contentTypeMatches m.statusCode
                    (jsOrS (s.req.headers.lookup "accepts") "*/*")
                  -- `const type = ...` binds the whole matches array; used as
                  -- an object key it coerces to its comma-joined string
                  match content.lookup (String.intercalate "," typeMatches) with
                  | some mt =>
                    match mt.schema with
                    | some sch => mockGenerate sch m s
                    | none => .callNext (some unableToMockErr) s
                  | none =>
                    -- `response.content[type].schema` on undefined: TypeError
                    -- caught by `.catch(next)`
                    .callNext (some { msg := "TypeError", statusCode := none }) s
                | _, _ => .callNext (some unableToMockErr) s }

end EnforcerMw

namespace EnforcerMw

/-- A schema whose random generation succeeds with a list value. -/
def genSchema : Schema := { random := .ok (Val.vlist [Val.vnum 1]) }

/-- An operation declaring a 200 response with a schema; its response
serialization succeeds and echoes the body. -/
def genOp : Operation :=
  { key := 1,
    responses := [("200", { schema := some genSchema })],
    respond := fun _ b _ =>
      .ok { headers := [("content-type", "application/json")], body := some b },
    contentTypeMatches := fun _ _ => ["application/json"] }

/-- A v2 catalog fixture that matches every request to `genOp`. -/
def oaGen : OpenApi :=
  { isV2 := true, versionStr := "2.0",
    validate := fun _ => .ok { operation := genOp },
    pathLookup := fun _ _ => some genOp }

/-- A request whose query string carries the mock trigger but whose
headers carry neither the mock header nor the mock query key. -/
def reqQueryTrigger : Req :=
  { query := [("x-mock", "200")], headers := [], operation := some genOp }

/-- C6 (failing input): the mock triage never consults the request's query
parameters — the `query` branch reads `req.headers` — so a request whose
query string carries the configured trigger (and whose headers do not)
produces no mock decision, and the mock middleware passes control onward
unchanged instead of making a source-`query` decision. -/
theorem C6_query_trigger_ignored :
    mockDecide {} false [] ["200"] = none
    ∧ (mocksMw {} oaGen (fun _ => none) false).body none
        { req := reqQueryTrigger, res := {} }
      = .callNext none { req := reqQueryTrigger, res := {} } :=
  ⟨rfl, rfl⟩

/-- The state of the mock middleware after attaching a decision for an
undeclared status code to the request. -/
def attachedUnlisted : St :=
  { req := { headers := [("x-mock", "404")], operation := some genOp,
             mockDecision := some { source := "header", specified := true,
                                    statusCode := "404", response := none } },
    res := {} }

/-- C7 counterexample: with the mock header explicitly requesting status
404, which `genOp` does not declare, and no controller bound, the mock
middleware fails through the error path with an error whose `statusCode`
is 400 — not 501 as the claim states. -/
theorem C7_unlisted_code_counterexample :
    (mocksMw {} oaGen (fun _ => none) false).body none
        { req := { headers := [("x-mock", "404")], operation := some genOp },
          res := {} }
      = .callNext (some (noResponseErr "404")) attachedUnlisted
    ∧ (noResponseErr "404").statusCode = some 400
    ∧ ¬ ((noResponseErr "404").statusCode = some 501) :=
  ⟨rfl, rfl, by decide⟩

/-- C7 (amended): an empty-valued manual trigger resolves to the first
declared response code when one exists; and a resolved status code absent
from the operation's declared responses, with no controller bound, fails
through the chain's error path with an error whose status code is 400
(the base mock exception's code; `unableToMock`'s 501 applies only to the
generation-failure shapes). -/
theorem C7_empty_trigger_first_code_unlisted_400 :
    (∀ (opts : Options) (automatic : Bool) (headers : StrMap)
       (c0 : String) (rest : List String),
      headers.lookup opts.mockHeader = some "" →
      mockDecide opts automatic headers (c0 :: rest)
        = some { source := "header", specified := false, statusCode := c0 })
    ∧ (∀ (opts : Options) (oa : OpenApi) (registry : Nat → Option Controller)
         (automatic : Bool) (s : St) (op : Operation) (m0 : MockDecision),
        s.req.operation = some op →
        mockDecide opts automatic s.req.headers (op.responses.map Prod.fst)
          = some m0 →
        op.responses.lookup m0.statusCode = none →
        registry op.key = none →
        (mocksMw opts oa registry automatic).body none s
          = .callNext (some (noResponseErr m0.statusCode))
              { s with req := { s.req with
                  mockDecision := some { m0 with response := none } } }
          ∧ (noResponseErr m0.statusCode).statusCode = some 400) := by
  constructor
  · intro opts automatic headers c0 rest h
    by_cases hc : c0 = "" <;> simp [mockDecide, h, jsOrS, hc]
  · intro opts oa registry automatic s op m0 hop hdec hresp hreg
    constructor
    · simp only [mocksMw, hop, hdec, hresp, hreg]
    · rfl

/-- Witness for C7's amended claim at concrete inputs. -/
theorem C7_empty_trigger_first_code_unlisted_400_witness :
    (mockDecide {} false [("x-mock", "")] ["200", "404"]
      = some { source := "header", specified := false, statusCode := "200" })
    ∧ ((mocksMw {} oaGen (fun _ => none) false).body none
        { req := { headers := [("x-mock", "404")], operation := some genOp },
          res := {} }
      = .callNext (some (noResponseErr "404")) attachedUnlisted
      ∧ (noResponseErr "404").statusCode = some 400) := by
  constructor
  · exact C7_empty_trigger_first_code_unlisted_400.1 {} false [("x-mock", "")]
      "200" ["404"] rfl
  · have h := C7_empty_trigger_first_code_unlisted_400.2 {} oaGen (fun _ => none)
      false { req := { headers := [("x-mock", "404")], operation := some genOp },
              res := {} }
      genOp { source := "header", specified := true, statusCode := "404" }
      rfl rfl rfl rfl
    exact h

end EnforcerMw

namespace EnforcerMw

/-- Clearing the marker header touches only the response. -/
theorem clearIf_req (b : Bool) (s : St) : (clearIf b s).req = s.req := by
  cases b <;> simp [clearIf]

/-- Attach a mock decision to the request of a chain state
(`req[reqMockStatusCodeProperty] = mock`). -/
def attachDecision (s : St) (m : MockDecision) : St :=
  { s with req := { s.req with mockDecision := some m } }

/-- C3: when a controller is bound to the matched operation in the
controllers middleware and a mock trigger applies, the composed chain
(controllers middleware first) invokes the controller with the marker
header set to `controller` and, when the controller produces the
response, never consults the rest of the chain (the mock middleware and
its generator included); and inside the mock middleware the MockDecision
(with its resolved status code and response) is attached to the request
before the controller-vs-generation branch is taken — a bound mock
controller receives the decision-carrying request. -/
theorem C3_controller_precedence_decision_attached :
    (∀ (registry : Nat → Option Controller) (opts : Options)
       (c : Controller) (op : Operation) (rest : List Mw) (s0 s2 : St) (v : String),
      s0.req.operation = some op →
      s0.req.headers.lookup opts.mockHeader = some v →
      registry op.key = some c →
      c ((clearIf true s0).setResHeader ENFORCER_HEADER "controller") = .handled s2 →
      runChain true (controllersMw registry :: rest) none s0 = (s2, none)
      ∧ ((clearIf true s0).setResHeader ENFORCER_HEADER "controller").res.headers.lookup
          ENFORCER_HEADER = some "controller")
    ∧ (∀ (opts : Options) (oa : OpenApi) (mockReg : Nat → Option Controller)
         (automatic : Bool) (s : St) (op : Operation) (m0 : MockDecision)
         (c : Controller),
        s.req.operation = some op →
        mockDecide opts automatic s.req.headers (op.responses.map Prod.fst)
          = some m0 →
        mockReg op.key = some c →
        (mocksMw opts oa mockReg automatic).body none s
          = catchToNext (c ((attachDecision s
              { m0 with response := op.responses.lookup m0.statusCode }).setResHeader
                ENFORCER_HEADER "mock"))) := by
  constructor
  · intro registry opts c op rest s0 s2 v hop htrig hreg hc
    have h1 : (clearIf true s0).req.operation = some op := by
      rw [clearIf_req]; exact hop
    constructor
    · simp only [runChain, controllersMw, h1, hreg, hc, catchToNext]
      norm_num
    · simp [St.setResHeader, Res.setHeader]
  · intro opts oa mockReg automatic s op m0 c hop hdec hreg
    simp only [mocksMw, hop, hdec, hreg, attachDecision]

/-- A controller that produces the response from the state it is given. -/
def handledCtrl : Controller := fun s => .handled s

/-- A request carrying an empty mock header, matched to `genOp`. -/
def s0fix : St :=
  { req := { headers := [("x-mock", "")], operation := some genOp }, res := {} }

/-- The decision `mockDecide` makes for `s0fix` against `genOp`. -/
def decisionFix : MockDecision :=
  { source := "header", specified := false, statusCode := "200" }

/-- Witness for C3 at a concrete operation, registry and request. -/
theorem C3_controller_precedence_decision_attached_witness :
    (runChain true
        (controllersMw (fun _ => some handledCtrl)
          :: [mocksMw {} oaGen (fun _ => none) false]) none s0fix
      = ((clearIf true s0fix).setResHeader ENFORCER_HEADER "controller", none)
      ∧ ((clearIf true s0fix).setResHeader ENFORCER_HEADER "controller").res.headers.lookup
          ENFORCER_HEADER = some "controller")
    ∧ ((mocksMw {} oaGen (fun _ => some handledCtrl) false).body none s0fix
      = catchToNext (handledCtrl ((attachDecision s0fix
          { decisionFix with
              response := genOp.responses.lookup decisionFix.statusCode }).setResHeader
            ENFORCER_HEADER "mock"))) := by
  constructor
  · exact C3_controller_precedence_decision_attached.1 (fun _ => some handledCtrl)
      {} handledCtrl genOp [mocksMw {} oaGen (fun _ => none) false] s0fix
      ((clearIf true s0fix).setResHeader ENFORCER_HEADER "controller")
      "" rfl rfl rfl rfl
  · exact C3_controller_precedence_decision_attached.2 {} oaGen
      (fun _ => some handledCtrl) false s0fix genOp decisionFix handledCtrl
      rfl rfl rfl

end EnforcerMw

namespace EnforcerMw

/-- The full pipeline outcome for the C8 scenario: a v2 contract matching
`genOp` (one declared response, 200, with a schema), no mock controller
bound, the mock header sent empty, the mock middleware as the only
registered handler. -/
def mockRunOutcome : MwOutcome :=
  middlewareStep {} [mocksMw {} oaGen (fun _ => none) false] oaGen
    { headers := [("x-mock", "")] } {}

/-- C8 counterexample: in the generated-mock success path the response
status is the decided 200, but the generated value is written through the
serializing send override — one serializer run, not a bypass of schema
re-validation — and no marker response header is set (in particular it is
not `mock`). -/
theorem C8_generated_mock_counterexample :
    mockRunOutcome.st.res.statusCode = 200
    ∧ mockRunOutcome.st.res.serializerRuns = 1
    ∧ mockRunOutcome.st.res.headers.lookup ENFORCER_HEADER = none
    ∧ ¬ (mockRunOutcome.st.res.headers.lookup ENFORCER_HEADER = some "mock")
    ∧ mockRunOutcome.st.res.transportWrites = [some (Val.vlist [Val.vnum 1])] := by
  refine ⟨rfl, rfl, rfl, ?_, rfl⟩
  intro h
  simp only [show mockRunOutcome.st.res.headers.lookup ENFORCER_HEADER = none from rfl]
    at h
  exact Option.noConfusion h

end EnforcerMw

namespace EnforcerMw

/-- The state produced by a successful generated-mock response: decision
attached, status set to the decided code, one pass through the serializing
send (override restored, serialized headers applied, serialized body
written). -/
def genSuccessState (s : St) (m : MockDecision) (r : SerializedResponse)
    (hd : StrMap) : St :=
  { req := { s.req with mockDecision := some m },
    res := { statusCode := jsStringToNat m.statusCode,
             headers := r.headers ++ hd,
             sendOverridden := false,
             transportWrites := s.res.transportWrites ++ [r.body],
             serializerRuns := s.res.serializerRuns + 1,
             randomCalls := s.res.randomCalls + 1,
             hostErrOut := s.res.hostErrOut },
    trace := s.trace }

/-- C8 (amended): for an operation declaring 200 as its first response
with a schema, no mock controller bound and the mock header sent empty,
when random generation succeeds the mock middleware sets the response
status to the decided 200 and writes the generated value through the
outgoing write — so the value is serialized/validated by the response
serializer like any handler body (one serializer run, not a bypass), the
serialized body reaches the transport, and the generation path sets no
marker header (the response headers are exactly those produced by the
serialization step). -/
theorem C8_generated_mock_serialized :
    ∀ (opts : Options) (oa : OpenApi) (registry : Nat → Option Controller)
      (automatic : Bool) (s : St) (op : Operation) (rsp : ResponseSpec)
      (more : List (String × ResponseSpec)) (sch : Schema) (v : Val)
      (cN : Nat) (hd : StrMap) (r : SerializedResponse),
      s.req.operation = some op →
      s.req.openapi = some oa →
      oa.isV2 = true →
      s.res.sendOverridden = true →
      s.req.headers.lookup opts.mockHeader = some "" →
      op.responses = ("200", rsp) :: more →
      rsp.schema = some sch →
      sch.random = .ok v →
      registry op.key = none →
      serializeAttempt oa op s.req.headers 200 s.res.headers v = (cN, hd, .ok r) →
      (mocksMw opts oa registry automatic).body none s
        = .handled (genSuccessState s
            { source := "header", specified := false, statusCode := "200",
              response := some rsp } r hd)
      ∧ (genSuccessState s
            { source := "header", specified := false, statusCode := "200",
              response := some rsp } r hd).res.statusCode = 200
      ∧ (genSuccessState s
            { source := "header", specified := false, statusCode := "200",
              response := some rsp } r hd).res.serializerRuns
          = s.res.serializerRuns + 1
      ∧ (genSuccessState s
            { source := "header", specified := false, statusCode := "200",
              response := some rsp } r hd).res.transportWrites
          = s.res.transportWrites ++ [r.body]
      ∧ (genSuccessState s
            { source := "header", specified := false, statusCode := "200",
              response := some rsp } r hd).res.headers = r.headers ++ hd := by
  intro opts oa registry automatic s op rsp more sch v cN hd r
  intro hop hoa hv2 hover htrig hresps hsch hrand hreg hser
  have hdec : mockDecide opts automatic s.req.headers
      (op.responses.map Prod.fst)
      = some { source := "header", specified := false, statusCode := "200" } := by
    simp [mockDecide, htrig, hresps, jsOrS]
  have hlook : op.responses.lookup "200" = some rsp := by
    simp [hresps]
  have hv : versionEqNum oa 2 = true := by
    simp [versionEqNum, jsVersion, hv2]
  refine ⟨?_, rfl, rfl, rfl, rfl⟩
  simp only [mocksMw, hop, hdec, hreg, hlook, hv, hsch, mockGenerate, hrand,
    resSend, genSuccessState]
  simp only [hover, hoa, hop, if_true]
  simp only [show jsStringToNat "200" = 200 from rfl, hser]

/-- A post-validation chain state for the C8 scenario: catalog and
operation attached, serializing override installed, mock header empty. -/
def sMock : St :=
  { req := { headers := [("x-mock", "")], operation := some genOp,
             openapi := some oaGen },
    res := { sendOverridden := true } }

/-- The serialized response the fixture operation produces for the
generated value. -/
def serFix : SerializedResponse :=
  { headers := [("content-type", "application/json")],
    body := some (Val.vlist [Val.vnum 1]) }

/-- Witness for C8's amended claim at the concrete generation scenario. -/
theorem C8_generated_mock_serialized_witness :
    ((mocksMw {} oaGen (fun _ => none) false).body none sMock
      = .handled (genSuccessState sMock
          { source := "header", specified := false, statusCode := "200",
            response := some { schema := some genSchema } } serFix [])
      ∧ (genSuccessState sMock
          { source := "header", specified := false, statusCode := "200",
            response := some { schema := some genSchema } } serFix
            []).res.statusCode = 200
      ∧ (genSuccessState sMock
          { source := "header", specified := false, statusCode := "200",
            response := some { schema := some genSchema } } serFix
            []).res.serializerRuns = (0 : Nat) + 1
      ∧ (genSuccessState sMock
          { source := "header", specified := false, statusCode := "200",
            response := some { schema := some genSchema } } serFix
            []).res.transportWrites = [] ++ [serFix.body]
      ∧ (genSuccessState sMock
          { source := "header", specified := false, statusCode := "200",
            response := some { schema := some genSchema } } serFix
            []).res.headers = serFix.headers ++ []) :=
  C8_generated_mock_serialized {} oaGen (fun _ => none) false sMock genOp
    { schema := some genSchema } [] genSchema (Val.vlist [Val.vnum 1]) 200 []
    serFix rfl rfl rfl rfl rfl rfl rfl rfl rfl rfl

end EnforcerMw

namespace EnforcerMw

/-- An element of a handler array: a function or something else. -/
inductive HandlerItem where
  | fn
  | notFn
deriving Repr, DecidableEq

/-- The value bound at `controller[operationName]`: a function, an array,
or anything else. -/
inductive HandlerVal where
  | fn
  | arr (items : List HandlerItem)
  | other (desc : String)
deriving Repr, DecidableEq

/-- The controllers target of `mapControllers`: a directory (resolved
controller path → loaded module exports; an absent entry models
MODULE_NOT_FOUND) or a plain mapping. A factory function target is invoked
up-front and reduces to the mapping case. -/
inductive ControllersTarget where
  | dir (modules : List (String × List (String × HandlerVal)))
  | obj (mapping : List (String × List (String × HandlerVal)))

/-- One operation of the catalog as seen by the registry builder: its
identity plus the annotation values used to resolve its controller and
operation names. -/
structure OpSpec where
  key : Nat
  opXController : Option String := none
  pathXController : Option String := none
  xOperationName : Option String := none
  operationId : Option String := none

/-- JS `a || b` over possibly-absent strings (empty string is falsy). -/
def jsOrO (a b : Option String) : Option String :=
  match a with
  | some s => if s = "" then b else some s
  | none => b

/-- `operationController || pathController || rootController`. -/
def resolvedControllerName (root : Option String) (o : OpSpec) : Option String :=
  jsOrO o.opXController (jsOrO o.pathXController root)

/-- `operation[xOperation] || operation.operationId`. -/
def resolvedOperationName (o : OpSpec) : Option String :=
  jsOrO o.xOperationName o.operationId

/-- Look up a controller module/entry in the target. -/
def ControllersTarget.lookupController (t : ControllersTarget) (name : String) :
    Option (List (String × HandlerVal)) :=
  match t with
  | .dir modules => modules.lookup name
  | .obj mapping => mapping.lookup name

/-- The sub-errors the scan of one operation records (src/dist/index.js
lines 403-463): missing controller module (`MODULE_NOT_FOUND`) or missing
mapping entry, missing operation entry, a bound value that is neither a
function nor an array of functions, and per-index messages for
non-function array elements. Operations lacking a controller or operation
name are skipped. -/
def opFailures (t : ControllersTarget) (root : Option String) (o : OpSpec) :
    List String :=
  match resolvedControllerName root o, resolvedOperationName o with
  | some cname, some oname =>
    match t.lookupController cname with
    | none =>
      match t with
      | .dir _ => [cname ++ ": Controller file not found"]
      | .obj _ => [cname ++ ": Controller not found"]
    | some controller =>
      match controller.lookup oname with
      | none =>
        match t with
        | .dir _ => [cname ++ ": Operation not found: " ++ oname]
        | .obj _ => [cname ++ ": Controller operation not found: " ++ oname]
      | some hv =>
        match hv with
        | .fn => []
        | .arr items =>
          (items.zip (List.range items.length)).filterMap fun (it, i) =>
            match it with
            | .fn => none
            | .notFn => some (cname ++ ": Expected a function or an array of functions: "
                ++ toString i ++ ": Not a function")
        | .other d =>
          [cname ++ ": Expected a function or an array of functions. Received: " ++ d]
  | _, _ => []

/-- What the registry binds for one operation: a single handler, or a
nested-runner chain over the function elements of an array. -/
inductive BoundHandler where
  | single
  | chain (fnCount : Nat)
deriving Repr, DecidableEq

/-- The map entry the scan of one operation adds, if any (the array case
binds the chain even when some elements were rejected; the aggregate
error still prevents the map from being returned). -/
def opBinding (t : ControllersTarget) (root : Option String) (o : OpSpec) :
    Option (Nat × BoundHandler) :=
  match resolvedControllerName root o, resolvedOperationName o with
  | some cname, some oname =>
    match t.lookupController cname with
    | none => none
    | some controller =>
      match controller.lookup oname with
      | none => none
      | some hv =>
        match hv with
        | .fn => some (o.key, .single)
        | .arr items => some (o.key, .chain (items.count .fn))
        | .other _ => none
  | _, _ => none

/-- `mapControllers` (src/dist/index.js lines 363-470): scan every
operation of the catalog, accumulating descriptive sub-errors and map
entries; only after the full scan, raise a single aggregate error when any
sub-error was recorded, otherwise return the registry map. -/
def mapControllers (t : ControllersTarget) (root : Option String)
    (ops : List OpSpec) : Except (List String) (List (Nat × BoundHandler)) :=
  let scan := ops.foldl
    (fun acc o =>
      (acc.1 ++ opFailures t root o, acc.2 ++ (opBinding t root o).toList))
    ([], [])
  if scan.1.isEmpty then .ok scan.2 else .error scan.1

end EnforcerMw

namespace EnforcerMw

/-- The registry scan accumulates, in catalog order, exactly the per-
operation failures and the per-operation bindings. -/
theorem mapControllersScan (t : ControllersTarget) (root : Option String) :
    ∀ (ops : List OpSpec) (accE : List String) (accM : List (Nat × BoundHandler)),
      ops.foldl
        (fun acc o =>
          (acc.1 ++ opFailures t root o, acc.2 ++ (opBinding t root o).toList))
        (accE, accM)
        = (accE ++ ops.flatMap (opFailures t root),
           accM ++ ops.filterMap (opBinding t root)) := by
  intro ops
  induction ops with
  | nil => intro accE accM; simp
  | cons o rest ih =>
    intro accE accM
    simp only [List.foldl_cons, ih, List.flatMap_cons, List.filterMap_cons]
    rcases h : opBinding t root o with _ | x <;>
      simp [h, List.append_assoc]

/-- Three operations bound to controllers `a`, `b`, `c`, none of which the
target provides. -/
def threeOps : List OpSpec :=
  [{ key := 0, opXController := some "a", operationId := some "x" },
   { key := 1, opXController := some "b", operationId := some "y" },
   { key := 2, opXController := some "c", operationId := some "z" }]

/-- C9: registry construction records every binding failure as a
sub-error instead of throwing immediately and, only after scanning every
operation, raises a single aggregate error enumerating all of them (in
catalog order); when any failure was recorded no registry map is returned;
with no failures the full operation→handler map is returned. A contract
with three operations missing their controller bindings yields one error
listing exactly three failures. -/
theorem C9_aggregate_binding_errors :
    (∀ (t : ControllersTarget) (root : Option String) (ops : List OpSpec),
      ops.flatMap (opFailures t root) = [] →
      mapControllers t root ops = .ok (ops.filterMap (opBinding t root)))
    ∧ (∀ (t : ControllersTarget) (root : Option String) (ops : List OpSpec),
      ops.flatMap (opFailures t root) ≠ [] →
      mapControllers t root ops = .error (ops.flatMap (opFailures t root))
      ∧ ∀ m, mapControllers t root ops ≠ .ok m)
    ∧ mapControllers (.obj []) none threeOps
        = .error ["a: Controller not found", "b: Controller not found",
                  "c: Controller not found"]
    ∧ (["a: Controller not found", "b: Controller not found",
        "c: Controller not found"] : List String).length = 3 := by
  refine ⟨?_, ?_, rfl, rfl⟩
  · intro t root ops h
    simp only [mapControllers, mapControllersScan, List.nil_append, h]
    simp
  · intro t root ops h
    have he : mapControllers t root ops = .error (ops.flatMap (opFailures t root)) := by
      simp only [mapControllers, mapControllersScan, List.nil_append]
      simp [List.isEmpty_iff, h]
    exact ⟨he, fun m hm => by rw [he] at hm; exact Except.noConfusion hm⟩

/-- Witness for C9: an empty catalog builds the empty registry; the
three-missing-controllers catalog raises the single aggregate error. -/
theorem C9_aggregate_binding_errors_witness :
    mapControllers (.obj []) none [] = .ok []
    ∧ (mapControllers (.obj []) none threeOps
        = .error ["a: Controller not found", "b: Controller not found",
                  "c: Controller not found"]
      ∧ ∀ m, mapControllers (.obj []) none threeOps ≠ .ok m) :=
  ⟨C9_aggregate_binding_errors.1 (.obj []) none [] rfl,
   C9_aggregate_binding_errors.2.1 (.obj []) none threeOps (by decide)⟩

end EnforcerMw

namespace EnforcerMw

/-- JS field values for the heap model: opaque primitives or object
references. -/
inductive JVal where
  | prim (s : String)
  | ref (n : Nat)
deriving Repr, DecidableEq

/-- A JS object: named fields. -/
abbrev Obj := List (String × JVal)

/-- A heap of objects addressed by allocation index. -/
abbrev Heap := List Obj

def hget (h : Heap) (r : Nat) : Option Obj := h[r]?

/-- Property write on an object value. -/
def objSet (o : Obj) (k : String) (v : JVal) : Obj :=
  (k, v) :: o.filter (fun p => p.1 ≠ k)

/-- Property write through a reference: mutate the referenced object. -/
def hsetField (h : Heap) (r : Nat) (k : String) (v : JVal) : Heap :=
  match h[r]? with
  | some o => h.set r (objSet o k v)
  | none => h

/-- The request-copy portion of `prototype.middleware` (src/dist/index.js
lines 136, 189, 194/198, 201-203) over the object heap:
`req = Object.assign({}, req)` allocates a fresh shallow copy, and the
catalog, operation and normalized parameters are attached to the copy; the
host's own request object is never written. -/
def middlewareAttach (h : Heap) (reqRef : Nat) (oaV opV pV : JVal) :
    Heap × Nat :=
  let o := (hget h reqRef).getD []
  let h1 := h ++ [o]
  let copyRef := h.length
  let h2 := hsetField h1 copyRef "openapi" oaV
  let h3 := hsetField h2 copyRef "operation" opV
  let h4 := hsetField h3 copyRef "params" pV
  (h4, copyRef)

theorem hget_hsetField_ne (h : Heap) (r r' : Nat) (k : String) (v : JVal)
    (hne : r' ≠ r) : hget (hsetField h r k v) r' = hget h r' := by
  unfold hsetField hget
  cases ho : h[r]? with
  | none => rfl
  | some o => exact List.getElem?_set_ne (Ne.symm hne)

theorem hget_hsetField_same (h : Heap) (r : Nat) (k : String) (v : JVal)
    (hr : r < h.length) :
    hget (hsetField h r k v) r = some (objSet ((hget h r).getD []) k v) := by
  unfold hsetField hget
  rw [List.getElem?_eq_getElem hr]
  simp [List.getElem?_set_eq_of_lt _ hr]

theorem length_hsetField (h : Heap) (r : Nat) (k : String) (v : JVal) :
    (hsetField h r k v).length = h.length := by
  unfold hsetField
  cases h[r]? <;> simp

theorem hget_append_singleton_ne (h : Heap) (o : Obj) (r : Nat)
    (hne : r ≠ h.length) : hget (h ++ [o]) r = hget h r := by
  unfold hget
  rcases Nat.lt_or_ge r h.length with hlt | hge
  · exact List.getElem?_append_left hlt
  · have h1 : h.length < r := lt_of_le_of_ne hge (Ne.symm hne)
    rw [List.getElem?_eq_none (by simpa using h1), List.getElem?_eq_none hge]

theorem lookup_filter_ne (o : Obj) (k b : String) (hb : b ≠ k) :
    (o.filter (fun p => p.1 ≠ k)).lookup b = o.lookup b := by
  induction o with
  | nil => rfl
  | cons p t ih =>
    obtain ⟨pk, pv⟩ := p
    rw [List.filter_cons]
    by_cases hp : pk = k
    · have hbp : (b == pk) = false := by simp [hp, hb]
      rw [if_neg (by simp [hp])]
      rw [ih]
      simp [List.lookup, hbp]
    · rw [if_pos (by simp [hp])]
      simp only [List.lookup]
      rw [ih]

theorem lookup_objSet_same (o : Obj) (k : String) (v : JVal) :
    (objSet o k v).lookup k = some v := by
  simp [objSet, List.lookup]

theorem lookup_objSet_ne (o : Obj) (k b : String) (v : JVal) (hb : b ≠ k) :
    (objSet o k v).lookup b = o.lookup b := by
  have hbk : (b == k) = false := by simp [hb]
  simp only [objSet, List.lookup, hbk]
  exact lookup_filter_ne o k b hb

end EnforcerMw

namespace EnforcerMw

/-- C10: the validation middleware works on a freshly allocated shallow
copy of the host's request object: the catalog, operation and normalized
parameters are attached to the copy (which otherwise sees every property
of the original), the copy is a different reference than the original, and
neither the original request object nor any other object of the heap is
modified — external handlers that the host runs afterwards observe the
original, unchanged request. -/
theorem C10_request_copy_frame :
    ∀ (h : Heap) (reqRef : Nat) (oaV opV pV : JVal),
      reqRef < h.length →
      (middlewareAttach h reqRef oaV opV pV).2 ≠ reqRef
      ∧ (∀ r, r ≠ (middlewareAttach h reqRef oaV opV pV).2 →
          hget (middlewareAttach h reqRef oaV opV pV).1 r = hget h r)
      ∧ hget (middlewareAttach h reqRef oaV opV pV).1 reqRef = hget h reqRef
      ∧ hget (middlewareAttach h reqRef oaV opV pV).1
            (middlewareAttach h reqRef oaV opV pV).2
          = some (objSet (objSet (objSet ((hget h reqRef).getD [])
              "openapi" oaV) "operation" opV) "params" pV)
      ∧ ((hget (middlewareAttach h reqRef oaV opV pV).1
            (middlewareAttach h reqRef oaV opV pV).2).getD []).lookup "params"
          = some pV
      ∧ ((hget (middlewareAttach h reqRef oaV opV pV).1
            (middlewareAttach h reqRef oaV opV pV).2).getD []).lookup "operation"
          = some opV
      ∧ ((hget (middlewareAttach h reqRef oaV opV pV).1
            (middlewareAttach h reqRef oaV opV pV).2).getD []).lookup "openapi"
          = some oaV
      ∧ (∀ k, k ≠ "openapi" → k ≠ "operation" → k ≠ "params" →
          ((hget (middlewareAttach h reqRef oaV opV pV).1
              (middlewareAttach h reqRef oaV opV pV).2).getD []).lookup k
            = ((hget h reqRef).getD []).lookup k) := by
  intro h reqRef oaV opV pV hlt
  have hneL : reqRef ≠ h.length := Nat.ne_of_lt hlt
  set o := (hget h reqRef).getD [] with ho
  have hA1L : hget (h ++ [o]) h.length = some o := by
    unfold hget; simp
  have hlen1 : h.length < (h ++ [o]).length := by simp
  have hA2 : hget (hsetField (h ++ [o]) h.length "openapi" oaV) h.length
      = some (objSet o "openapi" oaV) := by
    rw [hget_hsetField_same _ _ _ _ hlen1, hA1L]
    rfl
  have hlen2 : h.length < (hsetField (h ++ [o]) h.length "openapi" oaV).length := by
    rw [length_hsetField]; simp
  have hA3 : hget (hsetField (hsetField (h ++ [o]) h.length "openapi" oaV)
        h.length "operation" opV) h.length
      = some (objSet (objSet o "openapi" oaV) "operation" opV) := by
    rw [hget_hsetField_same _ _ _ _ hlen2, hA2]
    rfl
  have hlen3 : h.length < (hsetField (hsetField (h ++ [o]) h.length "openapi" oaV)
        h.length "operation" opV).length := by
    rw [length_hsetField, length_hsetField]; simp
  have hA4 : hget (middlewareAttach h reqRef oaV opV pV).1 h.length
      = some (objSet (objSet (objSet o "openapi" oaV) "operation" opV)
          "params" pV) := by
    show hget (hsetField _ h.length "params" pV) h.length = _
    rw [hget_hsetField_same _ _ _ _ hlen3, hA3]
    rfl
  have hframe : ∀ r, r ≠ h.length →
      hget (middlewareAttach h reqRef oaV opV pV).1 r = hget h r := by
    intro r hr
    show hget (hsetField _ _ _ _) r = _
    rw [hget_hsetField_ne _ _ _ _ _ hr, hget_hsetField_ne _ _ _ _ _ hr,
      hget_hsetField_ne _ _ _ _ _ hr, hget_append_singleton_ne _ _ _ hr]
  have hcopy : ((hget (middlewareAttach h reqRef oaV opV pV).1
        (middlewareAttach h reqRef oaV opV pV).2).getD [])
      = objSet (objSet (objSet o "openapi" oaV) "operation" opV) "params" pV := by
    show ((hget (middlewareAttach h reqRef oaV opV pV).1 h.length).getD []) = _
    rw [hA4]
    rfl
  refine ⟨Ne.symm hneL, hframe, hframe reqRef hneL, hA4, ?_, ?_, ?_, ?_⟩
  · rw [hcopy]; exact lookup_objSet_same _ _ _
  · rw [hcopy, lookup_objSet_ne _ _ _ _ (by decide)]
    exact lookup_objSet_same _ _ _
  · rw [hcopy, lookup_objSet_ne _ _ _ _ (by decide),
      lookup_objSet_ne _ _ _ _ (by decide)]
    exact lookup_objSet_same _ _ _
  · intro k hk1 hk2 hk3
    rw [hcopy, lookup_objSet_ne _ _ _ _ hk3, lookup_objSet_ne _ _ _ _ hk2,
      lookup_objSet_ne _ _ _ _ hk1]

/-- A one-object heap holding the host's request. -/
def hFix : Heap := [[("user", JVal.prim "alice")]]

/-- Witness for C10: attaching to a copy of the only object leaves the
original untouched while the copy carries the attachments and still sees
the original's own property. -/
theorem C10_request_copy_frame_witness :
    (middlewareAttach hFix 0 (JVal.prim "oa") (JVal.prim "op")
        (JVal.prim "p")).2 ≠ 0
    ∧ hget (middlewareAttach hFix 0 (JVal.prim "oa") (JVal.prim "op")
        (JVal.prim "p")).1 0 = hget hFix 0
    ∧ ((hget (middlewareAttach hFix 0 (JVal.prim "oa") (JVal.prim "op")
        (JVal.prim "p")).1
        (middlewareAttach hFix 0 (JVal.prim "oa") (JVal.prim "op")
          (JVal.prim "p")).2).getD []).lookup "openapi" = some (JVal.prim "oa")
    ∧ ((hget (middlewareAttach hFix 0 (JVal.prim "oa") (JVal.prim "op")
        (JVal.prim "p")).1
        (middlewareAttach hFix 0 (JVal.prim "oa") (JVal.prim "op")
          (JVal.prim "p")).2).getD []).lookup "user"
      = ((hget hFix 0).getD []).lookup "user" := by
  have h := C10_request_copy_frame hFix 0 (JVal.prim "oa") (JVal.prim "op")
    (JVal.prim "p") (by decide)
  exact ⟨h.1, h.2.2.1, h.2.2.2.2.2.2.1,
    h.2.2.2.2.2.2.2 "user" (by decide) (by decide) (by decide)⟩

end EnforcerMw
